import Mathlib

/-!
Shallow embedding of the authentication core of the ContivosCRM repository.

The definitions below are translated from the TypeScript sources:
  - shared/models/auth.ts        (data model: users, reset tokens, sso settings, audit log)
  - server/auth-service.ts       (AuthService: local login, password reset, SSO binding)
  - server/microsoft-auth.ts     (MicrosoftAuthService: state handshake, token verification,
                                  OAuth callback orchestration)
  - server/auth/session.ts       (isAuthenticated and isAdmin gates)
  - server/auth/routes.ts        (ensureCrmUser provisioning bootstrap)

Database rows become Lean structures, the relational store becomes explicit
lists threaded through each operation, network and crypto collaborators become
explicit function-valued parameters, and JavaScript time (Date.now, Date
comparisons) becomes an integer parameter `now`.
-/

namespace ContivosCRM

/-- Truthiness of a JavaScript string-or-undefined value: undefined and the
empty string are falsy, every other string is truthy. -/
def jsTruthy : Option String → Bool
  | none => false
  | some s => s ≠ ""

/-- JavaScript `a || b` on string-or-undefined values. -/
def jsOr (a b : Option String) : Option String :=
  if jsTruthy a then a else b

/-- JavaScript coercion `x || null` on a string-or-undefined value: keeps the
value only when it is truthy. -/
def jsOrNull (a : Option String) : Option String :=
  if jsTruthy a then a else none

/-- ASCII lowering of a string, modelling JavaScript toLowerCase on the ASCII
range (written over the character list so the kernel can evaluate it). -/
def lowerStr (s : String) : String :=
  String.mk (s.data.map Char.toLower)

/-- Splitting a character list at every occurrence of a separator character,
accumulator-passing form. -/
def splitCharAux (c : Char) : List Char → List Char → List (List Char)
  | [], acc => [acc.reverse]
  | x :: xs, acc =>
    if x = c then acc.reverse :: splitCharAux c xs [] else splitCharAux c xs (x :: acc)

/-- JavaScript `email.split("@")[1]`: the segment after the first separator
(none when the separator does not occur). -/
def emailDomain (email : String) : Option String :=
  ((splitCharAux '@' email.data []).get? 1).map String.mk

/-! ## Data model (shared/models/auth.ts) -/

/-- A row of the `users` table. Timestamps are integers; nullable columns are
options. The profileImageUrl and createdAt columns play no role in any claim
and are omitted. -/
structure User where
  id : String
  email : Option String
  firstName : Option String
  lastName : Option String
  /-- "local", "microsoft" or "replit" (authProviderEnum). -/
  authProvider : String
  passwordHash : Option String
  microsoftUserId : Option String
  microsoftTenantId : Option String
  isDisabled : Bool
  emailVerified : Bool
  lastLoginAt : Option Int
  updatedAt : Option Int
deriving Repr, DecidableEq

/-- A row of the `password_reset_tokens` table. -/
structure ResetToken where
  id : String
  userId : String
  token : String
  expiresAt : Int
  usedAt : Option Int
deriving Repr, DecidableEq

/-- A row of the `auth_audit_log` table (createdAt omitted). The metadata
column is only ever written as a (tenantId, microsoftUserId) pair. -/
structure AuditEvent where
  userId : Option String
  email : Option String
  action : String
  provider : Option String
  success : Bool
  failureReason : Option String
  ipAddress : Option String
  userAgent : Option String
  metadata : Option (String × String)
deriving Repr, DecidableEq

/-- The singleton `sso_settings` row (client id, tenant id and timestamps
omitted; they play no role in the claims). -/
structure SsoSettings where
  allowedTenantIds : Option (List String)
  allowedEmailDomains : Option (List String)
  defaultRoleForSso : Option String
  autoProvisionUsers : Bool
deriving Repr, DecidableEq

/-- A row of the `crm_users` table (team and timestamps omitted). -/
structure CrmUser where
  id : String
  authUserId : String
  role : String
  firstName : Option String
  lastName : Option String
  email : Option String
deriving Repr, DecidableEq

/-- The relational store, as explicit lists of rows, plus the append-only
audit log.  Audit writes are fire-and-forget in the source (a failed insert is
swallowed); the model lets them always succeed. -/
structure Db where
  users : List User
  tokens : List ResetToken
  sso : Option SsoSettings
  crm : List CrmUser
  audit : List AuditEvent
deriving Repr, DecidableEq

/-- `logAuditEvent`: append a row to the audit log. -/
def logAudit (db : Db) (e : AuditEvent) : Db :=
  { db with audit := db.audit ++ [e] }

/-! ## Authorization gates (server/auth/session.ts) -/

/-- The identity deserialized into a request session. -/
structure AuthUser where
  id : String
  email : String
  firstName : Option String
  lastName : Option String
  authProvider : String
  isDisabled : Bool
deriving Repr, DecidableEq

/-- Outcome of a middleware gate: pass the request on, or reject it with an
HTTP status and message. -/
inductive GateResult where
  | proceed
  | reject (status : Nat) (message : String)
deriving Repr, DecidableEq

/-- The `isAuthenticated` middleware.  The input is the session identity when
`req.isAuthenticated()` holds, none otherwise.  The second component records
whether `req.logout` was invoked (forcible session termination). -/
def isAuthenticated (sessionUser : Option AuthUser) : GateResult × Bool :=
  match sessionUser with
  | none => (.reject 401 "Unauthorized", false)
  | some u =>
    if u.isDisabled then (.reject 403 "Account is disabled", true)
    else (.proceed, false)

/-- The `isAdmin` middleware: checks `req.isAuthenticated()` itself, then
looks up the CRM profile row keyed by the account id and requires role
"admin".  (It does not invoke the `isAuthenticated` middleware and performs
no check of the disabled flag.) -/
def isAdmin (sessionUser : Option AuthUser) (crm : List CrmUser) : GateResult :=
  match sessionUser with
  | none => .reject 401 "Unauthorized"
  | some u =>
    match crm.find? (fun c => c.authUserId = u.id) with
    | none => .reject 403 "Admin access required"
    | some c => if c.role = "admin" then .proceed else .reject 403 "Admin access required"

/-! ## Anti-CSRF pending state (server/microsoft-auth.ts) -/

/-- `STATE_EXPIRY_MS = 10 * 60 * 1000`. -/
def STATE_EXPIRY_MS : Int := 10 * 60 * 1000

/-- The in-memory `pendingStates` map, as an association list from state value
to creation timestamp (a Map has at most one entry per key; lookup takes the
first match and deletion removes the key). -/
def lookupState (states : List (String × Int)) (s : String) : Option Int :=
  (states.find? (fun p => p.1 = s)).map (fun p => p.2)

/-- Deletion of a key from the pending-state map. -/
def deleteState (states : List (String × Int)) (s : String) : List (String × Int) :=
  states.filter (fun p => p.1 ≠ s)

/-- `validateState`: look the value up; absent means false; an entry older
than the expiry window is deleted and rejected; otherwise the entry is deleted
and accepted.  Returns the verdict and the updated map. -/
def validateState (now : Int) (states : List (String × Int)) (s : String) :
    Bool × List (String × Int) :=
  match lookupState states s with
  | none => (false, states)
  | some createdAt =>
    if now - createdAt > STATE_EXPIRY_MS then (false, deleteState states s)
    else (true, deleteState states s)

/-! ## AuthService (server/auth-service.ts) -/

/-- Result shape of the local and SSO login operations. -/
structure LoginResult where
  success : Bool
  user : Option User := none
  error : Option String := none
deriving Repr, DecidableEq

/-- `select ... where eq(users.email, email)` with a unique email column:
first row whose (nullable) email equals the given string. -/
def findUserByEmail (usersList : List User) (email : String) : Option User :=
  usersList.find? (fun u => u.email = some email)

/-- `loginLocalUser`.  The bcrypt comparison is an explicit oracle `verify`
(password, hash) so the control flow stays exactly that of the source.
Returns the caller-visible result and the updated store. -/
def loginLocalUser (verify : String → String → Bool) (now : Int) (db : Db)
    (email password : String) (ipAddress userAgent : Option String) : LoginResult × Db :=
  match findUserByEmail db.users (lowerStr email) with
  | none =>
    ({ success := false, error := some "Invalid email or password" },
     logAudit db
       { userId := none, email := some email, action := "failed_login",
         provider := some "local", success := false,
         failureReason := some "User not found",
         ipAddress := ipAddress, userAgent := userAgent, metadata := none })
  | some user =>
    if user.isDisabled then
      ({ success := false, error := some "Account is disabled. Contact your administrator." },
       logAudit db
         { userId := some user.id, email := some email, action := "failed_login",
           provider := some "local", success := false,
           failureReason := some "Account disabled",
           ipAddress := ipAddress, userAgent := userAgent, metadata := none })
    else
      match user.passwordHash with
      | none =>
        ({ success := false,
           error := some "This account uses Microsoft SSO. Please sign in with Microsoft." },
         logAudit db
           { userId := some user.id, email := some email, action := "failed_login",
             provider := some "local", success := false,
             failureReason := some "No password set (SSO account)",
             ipAddress := ipAddress, userAgent := userAgent, metadata := none })
      | some hash =>
        if verify password hash then
          let db1 := { db with
            users := db.users.map (fun u =>
              if u.id = user.id then { u with lastLoginAt := some now } else u) }
          ({ success := true, user := some user },
           logAudit db1
             { userId := some user.id, email := user.email, action := "login",
               provider := some "local", success := true, failureReason := none,
               ipAddress := ipAddress, userAgent := userAgent, metadata := none })
        else
          ({ success := false, error := some "Invalid email or password" },
           logAudit db
             { userId := some user.id, email := some email, action := "failed_login",
               provider := some "local", success := false,
               failureReason := some "Invalid password",
               ipAddress := ipAddress, userAgent := userAgent, metadata := none })

/-! ### resetPassword -/

/-- `select ... where eq(passwordResetTokens.token, token)` with a unique
token column: first row whose token string matches. -/
def findToken (tokens : List ResetToken) (token : String) : Option ResetToken :=
  tokens.find? (fun r => r.token = token)

/-- The validation cascade of `resetPassword`, applied to the row snapshot
returned by the initial select: absent, then already used, then expired, then
weak password, in that source order. -/
def rpValidate (now : Int) (snapshot : Option ResetToken) (newPassword : String) :
    Except String ResetToken :=
  match snapshot with
  | none => .error "Invalid or expired reset token"
  | some resetToken =>
    if resetToken.usedAt.isSome then .error "This reset token has already been used"
    else if now > resetToken.expiresAt then .error "This reset token has expired"
    else if newPassword.length < 8 then .error "Password must be at least 8 characters"
    else .ok resetToken

/-- The write phase of `resetPassword`: store the new hash on the owning user,
mark the token row used (an unconditional update keyed by the row id — no
check-and-set on usedAt), and append the audit event. -/
def rpApply (hash : String → String) (now : Int) (resetToken : ResetToken)
    (newPassword : String) (db : Db) : Db :=
  let db1 := { db with
    users := db.users.map (fun u =>
      if u.id = resetToken.userId then
        { u with passwordHash := some (hash newPassword), updatedAt := some now }
      else u),
    tokens := db.tokens.map (fun r =>
      if r.id = resetToken.id then { r with usedAt := some now } else r) }
  logAudit db1
    { userId := some resetToken.userId, email := none,
      action := "password_reset_complete", provider := some "local",
      success := true, failureReason := none,
      ipAddress := none, userAgent := none, metadata := none }

/-- `resetPassword(token, newPassword)` as a single sequential operation:
select the token row, run the validation cascade, then perform the writes.
Returns the error (none on success) and the updated store. -/
def resetPassword (hash : String → String) (now : Int) (db : Db)
    (token newPassword : String) : Option String × Db :=
  match rpValidate now (findToken db.tokens token) newPassword with
  | .error e => (some e, db)
  | .ok resetToken => (none, rpApply hash now resetToken newPassword db)

/-! ### resetPassword under concurrent execution

The source performs a plain select followed by unconditional updates, so a
concurrent execution is modelled as an interleaving of two atomic phases per
call: the select (taking a snapshot of the token row) and the
validate-and-write phase (which validates the snapshot and, on success,
performs all the writes). -/

/-- Per-call state of one in-flight `resetPassword` request: whether the
select has run, the snapshot it returned, and the final outcome once the
second phase has run (some (none) is success, some (some e) is the error e). -/
structure RpProc where
  readDone : Bool
  snapshot : Option ResetToken
  outcome : Option (Option String)
deriving Repr, DecidableEq

/-- A request that has not started yet. -/
def RpProc.init : RpProc := { readDone := false, snapshot := none, outcome := none }

/-- One atomic step of an in-flight `resetPassword` call: first the select,
then the validate-and-write phase against the snapshot; a finished call does
nothing. -/
def rpStep (hash : String → String) (now : Int) (token newPassword : String)
    (db : Db) (p : RpProc) : Db × RpProc :=
  if ¬p.readDone then
    (db, { p with readDone := true, snapshot := findToken db.tokens token })
  else
    match p.outcome with
    | some _ => (db, p)
    | none =>
      match rpValidate now p.snapshot newPassword with
      | .error e => (db, { p with outcome := some (some e) })
      | .ok resetToken =>
        (rpApply hash now resetToken newPassword db, { p with outcome := some none })

/-- Run two concurrent `resetPassword` calls with the same token and password
under a schedule: `false` steps the first call, `true` the second. -/
def rpRace (hash : String → String) (now : Int) (token newPassword : String) :
    List Bool → Db × RpProc × RpProc → Db × RpProc × RpProc
  | [], s => s
  | turn :: rest, (db, p0, p1) =>
    if turn then
      let (db1, p1') := rpStep hash now token newPassword db p1
      rpRace hash now token newPassword rest (db1, p0, p1')
    else
      let (db1, p0') := rpStep hash now token newPassword db p0
      rpRace hash now token newPassword rest (db1, p0', p1)

/-! ## Microsoft SSO binding (server/auth-service.ts, handleMicrosoftSsoCallback) -/

/-- The Graph profile shape consumed by the binder. -/
structure MicrosoftUserProfile where
  id : String
  displayName : Option String
  mail : Option String
  givenName : Option String
  surname : Option String
  userPrincipalName : Option String
deriving Repr, DecidableEq

/-- `(microsoftProfile.mail || microsoftProfile.userPrincipalName || "").toLowerCase()`. -/
def ssoEmail (p : MicrosoftUserProfile) : String :=
  lowerStr ((jsOr p.mail p.userPrincipalName).getD "")

/-- The tenant allow-list check: rejection requires a settings row with a
non-null, non-empty allowedTenantIds list not containing the tenant. -/
def tenantAllowed (settings : Option SsoSettings) (tenantId : String) : Bool :=
  match settings with
  | none => true
  | some s =>
    match s.allowedTenantIds with
    | none => true
    | some l => if l.length > 0 then l.contains tenantId else true

/-- The email-domain allow-list check against `email.split("@")[1]` (an email
without a domain part never matches a non-empty allow-list). -/
def domainAllowed (settings : Option SsoSettings) (email : String) : Bool :=
  match settings with
  | none => true
  | some s =>
    match s.allowedEmailDomains with
    | none => true
    | some l =>
      if l.length > 0 then
        match emailDomain email with
        | some d => l.contains d
        | none => false
      else true

/-- The update applied to an existing enabled account on SSO binding: link the
federation identity, keep authProvider "local" when it already is "local" and
set it to "microsoft" otherwise, refresh names without overwriting with
blanks, and stamp the login. -/
def applySsoUpdate (p : MicrosoftUserProfile) (tenantId : String) (now : Int)
    (u : User) : User :=
  { u with
    microsoftUserId := some p.id,
    microsoftTenantId := some tenantId,
    authProvider := if u.authProvider = "local" then "local" else "microsoft",
    firstName := jsOr p.givenName u.firstName,
    lastName := jsOr p.surname u.lastName,
    lastLoginAt := some now,
    updatedAt := some now }

/-- The row inserted when auto-provisioning a new federated account. -/
def provisionSsoUser (p : MicrosoftUserProfile) (email tenantId : String)
    (now : Int) (newId : String) : User :=
  { id := newId,
    email := some email,
    firstName := jsOrNull p.givenName,
    lastName := jsOrNull p.surname,
    authProvider := "microsoft",
    passwordHash := none,
    microsoftUserId := some p.id,
    microsoftTenantId := some tenantId,
    isDisabled := false,
    emailVerified := true,
    lastLoginAt := none,
    updatedAt := some now }

/-- `handleMicrosoftSsoCallback(microsoftProfile, tenantId, ...)`: extract the
email, apply the tenant and domain allow-lists, then bind to the existing
account by email (rejecting disabled accounts) or auto-provision a new one
(unless the settings forbid it).  `newId` stands for the generated row id. -/
def handleMicrosoftSsoCallback (p : MicrosoftUserProfile) (tenantId : String)
    (now : Int) (newId : String) (ipAddress userAgent : Option String)
    (db : Db) : LoginResult × Db :=
  let email := ssoEmail p
  if email = "" then
    ({ success := false, error := some "No email address found in Microsoft profile" }, db)
  else if ¬tenantAllowed db.sso tenantId then
    ({ success := false, error := some "Your organization is not authorized for SSO" },
     logAudit db
       { userId := none, email := some email, action := "failed_sso_login",
         provider := some "microsoft", success := false,
         failureReason := some ("Tenant " ++ tenantId ++ " not in allowed list"),
         ipAddress := ipAddress, userAgent := userAgent, metadata := none })
  else if ¬domainAllowed db.sso email then
    ({ success := false, error := some "Your email domain is not authorized for access" },
     logAudit db
       { userId := none, email := some email, action := "failed_sso_login",
         provider := some "microsoft", success := false,
         failureReason := some ("Email domain " ++ (emailDomain email).getD "undefined"
           ++ " not in allowed list"),
         ipAddress := ipAddress, userAgent := userAgent, metadata := none })
  else
    match findUserByEmail db.users email with
    | some user =>
      if user.isDisabled then
        ({ success := false, error := some "Account is disabled. Contact your administrator." },
         logAudit db
           { userId := some user.id, email := some email, action := "failed_sso_login",
             provider := some "microsoft", success := false,
             failureReason := some "Account disabled",
             ipAddress := ipAddress, userAgent := userAgent, metadata := none })
      else
        let updated := applySsoUpdate p tenantId now user
        let db1 := { db with
          users := db.users.map (fun u => if u.id = user.id then applySsoUpdate p tenantId now u else u) }
        ({ success := true, user := some updated },
         logAudit db1
           { userId := some updated.id, email := updated.email, action := "sso_login",
             provider := some "microsoft", success := true, failureReason := none,
             ipAddress := ipAddress, userAgent := userAgent,
             metadata := some (tenantId, p.id) })
    | none =>
      if db.sso.any (fun s => s.autoProvisionUsers = false) then
        ({ success := false,
           error := some "Account does not exist. Contact your administrator for access." },
         logAudit db
           { userId := none, email := some email, action := "failed_sso_login",
             provider := some "microsoft", success := false,
             failureReason := some "Auto-provisioning disabled and user does not exist",
             ipAddress := ipAddress, userAgent := userAgent, metadata := none })
      else
        let newUser := provisionSsoUser p email tenantId now newId
        let db1 := { db with users := db.users ++ [newUser] }
        ({ success := true, user := some newUser },
         logAudit db1
           { userId := some newUser.id, email := newUser.email, action := "sso_login",
             provider := some "microsoft", success := true, failureReason := none,
             ipAddress := ipAddress, userAgent := userAgent,
             metadata := some (tenantId, p.id) })

/-! ## Role bootstrapping (server/auth/routes.ts, ensureCrmUser) -/

/-- `ensureCrmUser(user)`: if the account has no CRM profile row yet, insert
one whose role is "sales" for local accounts and the settings default role
(falling back to "sales") otherwise.  `newCrmId` stands for the generated row
id. -/
def ensureCrmUser (user : User) (newCrmId : String) (db : Db) : Db :=
  match db.crm.find? (fun c => c.authUserId = user.id) with
  | some _ => db
  | none =>
    let defaultRole := ((db.sso.bind (fun s => jsOrNull s.defaultRoleForSso)).getD "sales")
    { db with crm := db.crm ++
        [{ id := newCrmId, authUserId := user.id,
           role := if user.authProvider = "local" then "sales" else defaultRole,
           firstName := user.firstName, lastName := user.lastName,
           email := user.email }] }

/-! ## Federation validator (server/microsoft-auth.ts) -/

/-- Configuration assembled by `getConfig` from the environment. -/
structure MicrosoftAuthConfig where
  clientId : String
  clientSecret : String
  tenantId : String
  redirectUri : String
deriving Repr, DecidableEq

/-- The decoded JOSE header of an ID token. -/
structure JwtHeader where
  alg : String
  kid : Option String
deriving Repr, DecidableEq

/-- The claims of a decoded ID token (the IdTokenPayload interface). -/
structure IdTokenPayload where
  iss : String
  sub : String
  aud : String
  exp : Int
  iat : Int
  tid : Option String
  email : Option String
  preferred_username : Option String
deriving Repr, DecidableEq

/-- An ID token as a decoded structure: header, payload and an abstract
signature. -/
structure IdToken where
  header : JwtHeader
  payload : IdTokenPayload
  signature : String
deriving Repr, DecidableEq

/-- The token-exchange response (only the fields the callback reads). -/
structure MicrosoftTokenResponse where
  access_token : String
  id_token : Option IdToken
deriving Repr, DecidableEq

/-- External collaborators of the federation flow as explicit functions: the
environment configuration, the per-tenant JWKS lookup keyed by kid, the
signature predicate of the crypto library, the token-exchange call, the Graph
profile fetch keyed by access token, and the Graph organization lookup. -/
structure SsoEnv where
  config : Option MicrosoftAuthConfig
  signingKey : String → String → Option String
  sigValid : IdToken → String → Bool
  exchangeCode : String → Option MicrosoftTokenResponse
  userProfile : String → Option MicrosoftUserProfile
  orgTenant : String → Option String

/-- Modelled from the spec: the verification performed by the jsonwebtoken
library (not part of this repository) with the options the source passes to
it — the signature must validate against the supplied key, the algorithm must
be in the allowed list, the audience must equal the expected one, the issuer
must be in the allowed list, and expiry and issued-at must hold within the
clock tolerance. -/
def jwtVerify (sigValid : IdToken → String → Bool) (now : Int) (tok : IdToken)
    (key : String) (algs : List String) (audience : String)
    (issuers : List String) (tolerance : Int) : Option IdTokenPayload :=
  if sigValid tok key && algs.contains tok.header.alg
      && (tok.payload.aud == audience) && issuers.contains tok.payload.iss
      && decide (now ≤ tok.payload.exp + tolerance)
      && decide (tok.payload.iat ≤ now + tolerance) then
    some tok.payload
  else none

/-- `verifyIdToken`: require a configuration and a kid in the header, resolve
the tenant for key discovery from the tid claim (falling back to the
configured tenant, and mapping the literal "common" to the configured
tenant), fetch the signing key by kid, and verify with algorithm RS256,
audience clientId, the two issuer templates for the tid, and a 300 second
tolerance.  Any failure yields none. -/
def verifyIdToken (env : SsoEnv) (now : Int) (idToken : IdToken) : Option IdTokenPayload :=
  match env.config with
  | none => none
  | some config =>
    match idToken.header.kid with
    | none => none
    | some kid =>
      let tid := (jsOrNull idToken.payload.tid).getD config.tenantId
      let tenantForJwks := if tid = "common" then config.tenantId else tid
      match env.signingKey tenantForJwks kid with
      | none => none
      | some key =>
        jwtVerify env.sigValid now idToken key ["RS256"] config.clientId
          ["https://login.microsoftonline.com/" ++ tid ++ "/v2.0",
           "https://sts.windows.net/" ++ tid ++ "/"] 300

/-! ## Callback orchestration (server/microsoft-auth.ts, handleCallback) -/

/-- Which optional steps of the callback actually ran: the ID-token
verification, the profile fetch, the claim-versus-profile email comparison,
and the Graph organization lookup. -/
structure CallbackTrace where
  verifyCalled : Bool
  profileFetchCalled : Bool
  crossCheckPerformed : Bool
  orgLookupCalled : Bool
deriving Repr, DecidableEq

/-- Full outcome of `handleCallback`: the login result, the updated store,
the updated pending-state map, and the step trace. -/
structure CallbackResult where
  result : LoginResult
  db : Db
  states : List (String × Int)
  trace : CallbackTrace
deriving Repr, DecidableEq

/-- The tail of `handleCallback` after state validation and token exchange:
fetch the profile, resolve the tenant (tid claim, else organization lookup,
else configured tenant, else "unknown"), cross-check the verified claim email
against the profile email, and hand over to the account binder. -/
def handleCallbackRest (env : SsoEnv) (now : Int) (newId : String)
    (ipAddress userAgent : Option String) (db : Db) (states : List (String × Int))
    (tokenResponse : MicrosoftTokenResponse) (verifiedClaims : Option IdTokenPayload)
    (verifyCalled : Bool) : CallbackResult :=
  match env.userProfile tokenResponse.access_token with
  | none =>
    { result := { success := false, error := some "Failed to fetch Microsoft profile" },
      db := db, states := states,
      trace := { verifyCalled := verifyCalled, profileFetchCalled := true,
                 crossCheckPerformed := false, orgLookupCalled := false } }
  | some profile =>
    let tidOpt := jsOrNull (verifiedClaims.bind (fun c => c.tid))
    let orgLookupCalled := tidOpt.isNone
    let tenantId :=
      match tidOpt with
      | some t => t
      | none =>
        match env.orgTenant tokenResponse.access_token with
        | some t => t
        | none => match env.config with | some c => c.tenantId | none => "unknown"
    let idTokenEmail := verifiedClaims.bind (fun c => jsOr c.email c.preferred_username)
    let crossCheckPerformed :=
      verifiedClaims.isSome && jsTruthy profile.mail && jsTruthy idTokenEmail
    let trace : CallbackTrace :=
      { verifyCalled := verifyCalled, profileFetchCalled := true,
        crossCheckPerformed := crossCheckPerformed, orgLookupCalled := orgLookupCalled }
    if crossCheckPerformed
        && (lowerStr (idTokenEmail.getD "") ≠ lowerStr (profile.mail.getD "")) then
      { result := { success := false, error := some "Authentication data mismatch" },
        db := db, states := states, trace := trace }
    else
      let r := handleMicrosoftSsoCallback profile tenantId now newId ipAddress userAgent db
      { result := r.1, db := r.2, states := states, trace := trace }

/-- `handleCallback(code, state, ...)`: consume the anti-CSRF state, exchange
the code, verify the ID token when the exchange response carries one (a
missing id_token skips verification entirely), then run the tail. -/
def handleCallback (env : SsoEnv) (now : Int) (newId : String)
    (ipAddress userAgent : Option String) (db : Db) (states : List (String × Int))
    (code state : String) : CallbackResult :=
  let v := validateState now states state
  let noTrace : CallbackTrace :=
    { verifyCalled := false, profileFetchCalled := false,
      crossCheckPerformed := false, orgLookupCalled := false }
  if ¬v.1 then
    { result := { success := false,
                  error := some "Invalid or expired state parameter (possible CSRF attack)" },
      db := db, states := v.2, trace := noTrace }
  else
    match env.exchangeCode code with
    | none =>
      { result := { success := false, error := some "Failed to authenticate with Microsoft" },
        db := db, states := v.2, trace := noTrace }
    | some tokenResponse =>
      match tokenResponse.id_token with
      | some idt =>
        match verifyIdToken env now idt with
        | none =>
          { result := { success := false,
                        error := some "Invalid authentication token from Microsoft" },
            db := db, states := v.2, trace := { noTrace with verifyCalled := true } }
        | some vc =>
          handleCallbackRest env now newId ipAddress userAgent db v.2 tokenResponse
            (some vc) true
      | none =>
        handleCallbackRest env now newId ipAddress userAgent db v.2 tokenResponse
          none false

/-! ## Theorems -/

/-! ### Claim C1 -/

/-- A disabled account whose CRM profile role is "admin". -/
def disabledAdminUser : AuthUser :=
  { id := "u1", email := "root@example.com", firstName := none, lastName := none,
    authProvider := "local", isDisabled := true }

/-- The CRM profile table holding an admin row for `disabledAdminUser`. -/
def disabledAdminCrm : List CrmUser :=
  [{ id := "c1", authUserId := "u1", role := "admin",
     firstName := none, lastName := none, email := none }]

/-- Claim C1 as stated is false: a request carrying a valid session of a
disabled account whose CRM role is "admin" is NOT rejected by the isAdmin
gate — isAdmin lets it proceed, even though the isAuthenticated gate would
have rejected the same session with a 403 and ended it. -/
theorem isAdmin_disabled_session_passes :
    isAdmin (some disabledAdminUser) disabledAdminCrm = GateResult.proceed ∧
    disabledAdminUser.isDisabled = true ∧
    isAuthenticated (some disabledAdminUser) =
      (GateResult.reject 403 "Account is disabled", true) := by
  decide

/-- Claim C1 amended: the isAdmin gate rejects 401 without a session and
otherwise passes exactly the sessions whose CRM profile role is "admin",
independently of the disabled flag; only the separate isAuthenticated gate
rejects a disabled account with a 403 and forcibly ends the session. -/
theorem isAdmin_gate_characterization (u : AuthUser) (crm : List CrmUser) :
    isAdmin none crm = GateResult.reject 401 "Unauthorized" ∧
    (isAdmin (some u) crm = GateResult.proceed ↔
      (crm.find? (fun c => c.authUserId = u.id)).map (fun c => c.role) = some "admin") ∧
    (u.isDisabled = true →
      isAuthenticated (some u) = (GateResult.reject 403 "Account is disabled", true)) := by
  refine ⟨rfl, ?_, ?_⟩
  · cases h : crm.find? (fun c => c.authUserId = u.id) with
    | none => simp [isAdmin, h]
    | some c =>
      by_cases hr : c.role = "admin" <;> simp [isAdmin, h, hr]
  · intro hd
    simp [isAuthenticated, hd]

/-- Witness for the amended claim C1 at a concrete session and CRM table. -/
theorem isAdmin_gate_characterization_witness :
    isAdmin (some disabledAdminUser) disabledAdminCrm = GateResult.proceed ∧
    isAuthenticated (some disabledAdminUser) =
      (GateResult.reject 403 "Account is disabled", true) := by
  have h := isAdmin_gate_characterization disabledAdminUser disabledAdminCrm
  exact ⟨h.2.1.mpr (by decide), h.2.2 (by decide)⟩

/-! ### Claim C6 -/

/-- Deleting a state value removes every entry for it. -/
theorem lookupState_deleteState (states : List (String × Int)) (s : String) :
    lookupState (deleteState states s) s = none := by
  unfold lookupState deleteState
  induction states with
  | nil => rfl
  | cons head tail ih =>
    by_cases h : head.1 = s
    · simp [h]
    · simp only [List.filter_cons, h, decide_not, List.find?]
      simp [h]

/-- A lookup that finds the value leaves the deleted map behind, whether or
not the entry was expired. -/
theorem validateState_consumes (now : Int) (states : List (String × Int)) (s : String)
    (c : Int) (h : lookupState states s = some c) :
    (validateState now states s).2 = deleteState states s := by
  unfold validateState
  rw [h]
  by_cases he : now - c > STATE_EXPIRY_MS <;> simp [he]

/-- Claim C6: anti-CSRF state values are single-use.  An absent value is
rejected and leaves the map unchanged; any lookup that finds the value
deletes its entry (so a second lookup no longer finds it); a value older than
the 10-minute window is rejected; and two validations of the same value
return true at most once. -/
theorem validateState_single_use (now now2 : Int) (states : List (String × Int))
    (s : String) :
    (lookupState states s = none → validateState now states s = (false, states)) ∧
    (∀ c, lookupState states s = some c →
      lookupState (validateState now states s).2 s = none) ∧
    (∀ c, lookupState states s = some c → now - c > STATE_EXPIRY_MS →
      (validateState now states s).1 = false) ∧
    ((validateState now states s).1 = true →
      (validateState now2 (validateState now states s).2 s).1 = false) := by
  refine ⟨?_, ?_, ?_, ?_⟩
  · intro h
    simp [validateState, h]
  · intro c h
    rw [validateState_consumes now states s c h, lookupState_deleteState]
  · intro c h he
    simp [validateState, h, he]
  · intro h
    cases hl : lookupState states s with
    | none => simp [validateState, hl] at h
    | some c =>
      rw [validateState_consumes now states s c hl]
      unfold validateState
      rw [lookupState_deleteState]

/-- Witness for claim C6 at a concrete map: the value validates once and the
repeat attempt fails. -/
theorem validateState_single_use_witness :
    validateState 5 [] "x" = (false, []) ∧
    lookupState (validateState 5 [("x", 0)] "x").2 "x" = none ∧
    (validateState 700000 [("x", 0)] "x").1 = false ∧
    (validateState 1 (validateState 0 [("x", 0)] "x").2 "x").1 = false := by
  refine ⟨(validateState_single_use 5 0 [] "x").1 (by decide),
    (validateState_single_use 5 0 [("x", 0)] "x").2.1 0 (by decide),
    (validateState_single_use 700000 0 [("x", 0)] "x").2.2.1 0 (by decide) (by decide),
    (validateState_single_use 0 1 [("x", 0)] "x").2.2.2 (by decide)⟩

/-! ### Claim C7 -/

/-- Claim C7: each of the four failure paths of the local login (account not
found, account disabled, no password set, password mismatch) appends exactly
one audit event with its own specific failure reason, the four reasons are
pairwise distinct, the caller-visible error is the identical generic message
for the not-found and mismatch cases, and a specific message for the disabled
and no-password cases. -/
theorem loginLocalUser_failure_audit_paths (verify : String → String → Bool)
    (now : Int) (db : Db) (email password : String) (ip ua : Option String) :
    (findUserByEmail db.users (lowerStr email) = none →
      (loginLocalUser verify now db email password ip ua).1 =
        { success := false, error := some "Invalid email or password" } ∧
      (loginLocalUser verify now db email password ip ua).2.audit = db.audit ++
        [{ userId := none, email := some email, action := "failed_login",
           provider := some "local", success := false,
           failureReason := some "User not found",
           ipAddress := ip, userAgent := ua, metadata := none }]) ∧
    (∀ u, findUserByEmail db.users (lowerStr email) = some u → u.isDisabled = true →
      (loginLocalUser verify now db email password ip ua).1 =
        { success := false,
          error := some "Account is disabled. Contact your administrator." } ∧
      (loginLocalUser verify now db email password ip ua).2.audit = db.audit ++
        [{ userId := some u.id, email := some email, action := "failed_login",
           provider := some "local", success := false,
           failureReason := some "Account disabled",
           ipAddress := ip, userAgent := ua, metadata := none }]) ∧
    (∀ u, findUserByEmail db.users (lowerStr email) = some u → u.isDisabled = false →
      u.passwordHash = none →
      (loginLocalUser verify now db email password ip ua).1 =
        { success := false,
          error := some "This account uses Microsoft SSO. Please sign in with Microsoft." } ∧
      (loginLocalUser verify now db email password ip ua).2.audit = db.audit ++
        [{ userId := some u.id, email := some email, action := "failed_login",
           provider := some "local", success := false,
           failureReason := some "No password set (SSO account)",
           ipAddress := ip, userAgent := ua, metadata := none }]) ∧
    (∀ u hash, findUserByEmail db.users (lowerStr email) = some u → u.isDisabled = false →
      u.passwordHash = some hash → verify password hash = false →
      (loginLocalUser verify now db email password ip ua).1 =
        { success := false, error := some "Invalid email or password" } ∧
      (loginLocalUser verify now db email password ip ua).2.audit = db.audit ++
        [{ userId := some u.id, email := some email, action := "failed_login",
           provider := some "local", success := false,
           failureReason := some "Invalid password",
           ipAddress := ip, userAgent := ua, metadata := none }]) ∧
    (["User not found", "Account disabled", "No password set (SSO account)",
       "Invalid password"].Pairwise (fun a b => a ≠ b)) := by
  refine ⟨?_, ?_, ?_, ?_, by decide⟩
  · intro h
    constructor <;> simp [loginLocalUser, h, logAudit]
  · intro u h hd
    constructor <;> simp [loginLocalUser, h, hd, logAudit]
  · intro u h hd hp
    constructor <;> simp [loginLocalUser, h, hd, hp, logAudit]
  · intro u hash h hd hp hv
    constructor <;> simp [loginLocalUser, h, hd, hp, hv, logAudit]

/-- A store with one enabled local account for the claim C7 witness. -/
def c7Db : Db :=
  { users := [{ id := "u1", email := some "ann@example.com", firstName := none,
                lastName := none, authProvider := "local",
                passwordHash := some "HASH", microsoftUserId := none,
                microsoftTenantId := none, isDisabled := false,
                emailVerified := false, lastLoginAt := none, updatedAt := none }],
    tokens := [], sso := none, crm := [], audit := [] }

/-- Witness for claim C7: the not-found and mismatch paths at concrete inputs
produce the same generic error and their own audit reasons. -/
theorem loginLocalUser_failure_audit_paths_witness :
    ((loginLocalUser (fun _ _ => false) 0 c7Db "ghost@example.com" "pw" none none).1 =
      { success := false, error := some "Invalid email or password" } ∧
     (loginLocalUser (fun _ _ => false) 0 c7Db "ghost@example.com" "pw" none none).2.audit =
      c7Db.audit ++
        [{ userId := none, email := some "ghost@example.com", action := "failed_login",
           provider := some "local", success := false,
           failureReason := some "User not found",
           ipAddress := none, userAgent := none, metadata := none }]) ∧
    ((loginLocalUser (fun _ _ => false) 0 c7Db "ann@example.com" "bad" none none).1 =
      { success := false, error := some "Invalid email or password" } ∧
     (loginLocalUser (fun _ _ => false) 0 c7Db "ann@example.com" "bad" none none).2.audit =
      c7Db.audit ++
        [{ userId := some "u1", email := some "ann@example.com", action := "failed_login",
           provider := some "local", success := false,
           failureReason := some "Invalid password",
           ipAddress := none, userAgent := none, metadata := none }]) := by
  refine ⟨?_, ?_⟩
  · exact (loginLocalUser_failure_audit_paths (fun _ _ => false) 0 c7Db
      "ghost@example.com" "pw" none none).1 (by decide)
  · exact (loginLocalUser_failure_audit_paths (fun _ _ => false) 0 c7Db
      "ann@example.com" "bad" none none).2.2.2.1
      (c7Db.users.get ⟨0, by decide⟩) "HASH" (by decide) (by decide) (by decide) rfl

/-! ### Claim C5 -/

/-- The two caller-visible messages the spec groups under
InvalidOrExpiredToken: the absent-token message and the expired-token
message. -/
def isInvalidOrExpiredMsg (m : String) : Bool :=
  m = "Invalid or expired reset token" || m = "This reset token has expired"

/-- A store holding a reset token that is both consumed and past expiry. -/
def c5Db : Db :=
  { users := [{ id := "u1", email := some "ann@example.com", firstName := none,
                lastName := none, authProvider := "local",
                passwordHash := some "OLD", microsoftUserId := none,
                microsoftTenantId := none, isDisabled := false,
                emailVerified := false, lastLoginAt := none, updatedAt := none }],
    tokens := [{ id := "t1", userId := "u1", token := "tok",
                 expiresAt := 50, usedAt := some 40 }],
    sso := none, crm := [], audit := [] }

/-- Claim C5 as stated is false at a token that is both consumed and past its
expiry: resetPassword reports TokenAlreadyUsed there, not the
invalid-or-expired error the claim requires for every token past expiry (the
consumed check runs before the expiry check). -/
theorem resetPassword_used_expired_reports_used :
    (100 : Int) > (50 : Int) ∧
    resetPassword (fun s => s) 100 c5Db "tok" "longpassword" =
      (some "This reset token has already been used", c5Db) ∧
    isInvalidOrExpiredMsg "This reset token has already been used" = false := by
  refine ⟨by decide, ?_, by decide⟩
  decide

/-- Claim C5 amended: sequentially, resetPassword fails with the
invalid-token error when the token is absent; fails with the used-token error
when the token is already consumed (this check precedes the expiry check, so
a consumed token past expiry also reports used); fails with the expired-token
error when the token is unconsumed and past expiry, regardless of the new
password; fails with the weak-password error when the new password is shorter
than 8; and otherwise stores the re-hashed password on the owning account,
marks the token used, and appends the audit event. -/
theorem resetPassword_case_analysis (hash : String → String) (now : Int) (db : Db)
    (token newPassword : String) :
    (findToken db.tokens token = none →
      resetPassword hash now db token newPassword =
        (some "Invalid or expired reset token", db)) ∧
    (∀ rt t, findToken db.tokens token = some rt → rt.usedAt = some t →
      resetPassword hash now db token newPassword =
        (some "This reset token has already been used", db)) ∧
    (∀ rt, findToken db.tokens token = some rt → rt.usedAt = none →
      now > rt.expiresAt →
      resetPassword hash now db token newPassword =
        (some "This reset token has expired", db)) ∧
    (∀ rt, findToken db.tokens token = some rt → rt.usedAt = none →
      ¬now > rt.expiresAt → newPassword.length < 8 →
      resetPassword hash now db token newPassword =
        (some "Password must be at least 8 characters", db)) ∧
    (∀ rt, findToken db.tokens token = some rt → rt.usedAt = none →
      ¬now > rt.expiresAt → ¬newPassword.length < 8 →
      (resetPassword hash now db token newPassword).1 = none ∧
      (resetPassword hash now db token newPassword).2.users =
        db.users.map (fun u =>
          if u.id = rt.userId then
            { u with passwordHash := some (hash newPassword), updatedAt := some now }
          else u) ∧
      (resetPassword hash now db token newPassword).2.tokens =
        db.tokens.map (fun r =>
          if r.id = rt.id then { r with usedAt := some now } else r) ∧
      (resetPassword hash now db token newPassword).2.audit = db.audit ++
        [{ userId := some rt.userId, email := none,
           action := "password_reset_complete", provider := some "local",
           success := true, failureReason := none,
           ipAddress := none, userAgent := none, metadata := none }]) := by
  refine ⟨?_, ?_, ?_, ?_, ?_⟩
  · intro h
    simp [resetPassword, rpValidate, h]
  · intro rt t h hu
    simp [resetPassword, rpValidate, h, hu]
  · intro rt h hu he
    simp [resetPassword, rpValidate, h, hu, he]
  · intro rt h hu he hw
    simp [resetPassword, rpValidate, h, hu, he, hw]
  · intro rt h hu he hw
    refine ⟨?_, ?_, ?_, ?_⟩ <;>
      simp [resetPassword, rpValidate, rpApply, logAudit, h, hu, he, hw]

/-- A store holding one valid, unconsumed reset token. -/
def c4Db : Db :=
  { users := [{ id := "u1", email := some "ann@example.com", firstName := none,
                lastName := none, authProvider := "local",
                passwordHash := some "OLD", microsoftUserId := none,
                microsoftTenantId := none, isDisabled := false,
                emailVerified := false, lastLoginAt := none, updatedAt := none }],
    tokens := [{ id := "t1", userId := "u1", token := "tok",
                 expiresAt := 1000, usedAt := none }],
    sso := none, crm := [], audit := [] }

/-- Witness for the amended claim C5 at the concrete valid token of `c4Db`. -/
theorem resetPassword_case_analysis_witness :
    (resetPassword (fun s => String.append "H" s) 0 c4Db "tok" "newpassword").1 = none ∧
    (resetPassword (fun s => String.append "H" s) 0 c4Db "tok" "newpassword").2.tokens =
      [{ id := "t1", userId := "u1", token := "tok", expiresAt := 1000,
         usedAt := some 0 }] ∧
    resetPassword (fun s => String.append "H" s) 0 c4Db "missing" "newpassword" =
      (some "Invalid or expired reset token", c4Db) := by
  have h5 := (resetPassword_case_analysis (fun s => String.append "H" s) 0 c4Db
    "tok" "newpassword").2.2.2.2
    { id := "t1", userId := "u1", token := "tok", expiresAt := 1000, usedAt := none }
    (by decide) rfl (by decide) (by decide)
  have h1 := (resetPassword_case_analysis (fun s => String.append "H" s) 0 c4Db
    "missing" "newpassword").1 (by decide)
  exact ⟨h5.1, by rw [h5.2.2.1]; decide, h1⟩

/-! ### Claim C4 -/

/-- Claim C4 as stated is false: because token consumption is a plain select
followed by an unconditional update (no check-and-set on the consumed field),
the interleaving in which both calls take their snapshot before either
writes lets BOTH concurrent resetPassword calls with the same valid token
succeed — not exactly one success and one failure. -/
theorem resetPassword_race_double_success :
    (rpRace (fun s => String.append "H" s) 0 "tok" "newpassword"
      [false, true, false, true] (c4Db, RpProc.init, RpProc.init)).2.1.outcome =
        some none ∧
    (rpRace (fun s => String.append "H" s) 0 "tok" "newpassword"
      [false, true, false, true] (c4Db, RpProc.init, RpProc.init)).2.2.outcome =
        some none := by
  constructor <;> decide

/-- Marking a found token used preserves its position under lookup by token
string: the second select sees the consumed row. -/
theorem findToken_mark_used (tokens : List ResetToken) (token : String)
    (rt : ResetToken) (now : Int) (h : findToken tokens token = some rt) :
    findToken
      (tokens.map (fun r => if r.id = rt.id then { r with usedAt := some now } else r))
      token = some { rt with usedAt := some now } := by
  unfold findToken at h ⊢
  induction tokens with
  | nil => simp at h
  | cons head tail ih =>
    rw [List.map_cons]
    by_cases hh : head.token = token
    · rw [List.find?_cons_of_pos _ (by simp [hh])] at h
      injection h with h
      subst h
      rw [List.find?_cons_of_pos]
      · simp
      · by_cases hid : head.id = head.id <;> simp [hid, hh]
    · rw [List.find?_cons_of_neg _ (by simp [hh])] at h
      rw [List.find?_cons_of_neg]
      · exact ih h
      · by_cases hid : head.id = rt.id <;> simp [hid, hh]

/-- A successful resetPassword call presupposes a found, unconsumed token
row. -/
theorem resetPassword_success_found (now : Int) (db : Db)
    (token newPassword : String) (rt : ResetToken)
    (hv : rpValidate now (findToken db.tokens token) newPassword = .ok rt) :
    findToken db.tokens token = some rt ∧ rt.usedAt = none := by
  unfold rpValidate at hv
  cases hf : findToken db.tokens token with
  | none => rw [hf] at hv; simp at hv
  | some rt' =>
    rw [hf] at hv
    by_cases hu : rt'.usedAt.isSome
    · simp [hu] at hv
    · by_cases he : now > rt'.expiresAt
      · simp [hu, he] at hv
      · by_cases hw : newPassword.length < 8
        · simp [hu, he, hw] at hv
        · simp only [hu, he, hw, if_false, Bool.false_eq_true, ite_false] at hv
          injection hv with hv
          subst hv
          exact ⟨rfl, Option.not_isSome_iff_eq_none.mp hu⟩

/-- Claim C4 amended: consumption is not atomic under interleaving (both
concurrent calls can succeed, as the counterexample shows); what the code
does guarantee is strictly sequential single use: whenever a resetPassword
call succeeds, a second call with the same token against the resulting store
fails with the used-token error. -/
theorem resetPassword_sequential_single_use (hash hash2 : String → String)
    (now now2 : Int) (db : Db) (token newPassword newPassword2 : String)
    (h : (resetPassword hash now db token newPassword).1 = none) :
    (resetPassword hash2 now2 (resetPassword hash now db token newPassword).2
        token newPassword2).1 =
      some "This reset token has already been used" := by
  rcases hv : rpValidate now (findToken db.tokens token) newPassword with e | rt
  · rw [resetPassword, hv] at h
    simp at h
  · obtain ⟨hf, _⟩ := resetPassword_success_found now db token newPassword rt hv
    have h2 : (resetPassword hash now db token newPassword).2.tokens =
        db.tokens.map (fun r => if r.id = rt.id then { r with usedAt := some now } else r) := by
      rw [resetPassword, hv]
      simp [rpApply, logAudit]
    have h3 : findToken (resetPassword hash now db token newPassword).2.tokens token =
        some { rt with usedAt := some now } := by
      rw [h2]
      exact findToken_mark_used db.tokens token rt now hf
    rw [resetPassword, h3]
    simp [rpValidate]

/-- Witness for the amended claim C4: after one successful reset of the
`c4Db` token, the follow-up call fails with the used-token error. -/
theorem resetPassword_sequential_single_use_witness :
    (resetPassword (fun s => String.append "H" s) 1
        (resetPassword (fun s => String.append "H" s) 0 c4Db "tok" "newpassword").2
        "tok" "newpassword2").1 =
      some "This reset token has already been used" := by
  exact resetPassword_sequential_single_use (fun s => String.append "H" s)
    (fun s => String.append "H" s) 0 1 c4Db "tok" "newpassword" "newpassword2"
    (by decide)

/-! ### Claim C8 -/

/-- Claim C8: when a federated login binds to an existing enabled account
(email found, tenant and domain admitted, account not disabled), the bound
account is the applySsoUpdate of the stored row; an account of local origin
that already has a password keeps origin local, binding never touches the
password, and origin changes from local to federated only for accounts with
no password at all. -/
theorem sso_bind_preserves_local_origin (p : MicrosoftUserProfile)
    (tenantId : String) (now : Int) (newId : String) (ip ua : Option String)
    (db : Db) (u : User)
    (hemail : ssoEmail p ≠ "")
    (ht : tenantAllowed db.sso tenantId = true)
    (hdom : domainAllowed db.sso (ssoEmail p) = true)
    (hu : findUserByEmail db.users (ssoEmail p) = some u)
    (hdis : u.isDisabled = false) :
    (handleMicrosoftSsoCallback p tenantId now newId ip ua db).1.user =
      some (applySsoUpdate p tenantId now u) ∧
    (u.authProvider = "local" → u.passwordHash ≠ none →
      (applySsoUpdate p tenantId now u).authProvider = "local") ∧
    (applySsoUpdate p tenantId now u).passwordHash = u.passwordHash ∧
    (u.authProvider = "local" → (applySsoUpdate p tenantId now u).authProvider ≠ "local" →
      u.passwordHash = none) := by
  refine ⟨?_, ?_, rfl, ?_⟩
  · simp [handleMicrosoftSsoCallback, hemail, ht, hdom, hu, hdis, logAudit]
  · intro hl _
    simp [applySsoUpdate, hl]
  · intro hl hne
    exact absurd (by simp [applySsoUpdate, hl]) hne

/-- A store holding one enabled local account with a password, reachable by
the email of the profile below. -/
def c8Db : Db :=
  { users := [{ id := "u1", email := some "ann@acme.com", firstName := some "Ann",
                lastName := none, authProvider := "local",
                passwordHash := some "HASH", microsoftUserId := none,
                microsoftTenantId := none, isDisabled := false,
                emailVerified := false, lastLoginAt := none, updatedAt := none }],
    tokens := [], sso := none, crm := [], audit := [] }

/-- The federated profile binding to the account of `c8Db`. -/
def c8Profile : MicrosoftUserProfile :=
  { id := "ms-ann", displayName := none, mail := some "Ann@ACME.com",
    givenName := some "Ann", surname := some "Lee",
    userPrincipalName := none }

/-- Witness for claim C8: binding a federated login to the local
password-holding account of `c8Db` keeps its origin local. -/
theorem sso_bind_preserves_local_origin_witness :
    (handleMicrosoftSsoCallback c8Profile "tenant-1" 7 "n1" none none c8Db).1.user =
      some (applySsoUpdate c8Profile "tenant-1" 7 (c8Db.users.get ⟨0, by decide⟩)) ∧
    (applySsoUpdate c8Profile "tenant-1" 7 (c8Db.users.get ⟨0, by decide⟩)).authProvider =
      "local" := by
  have h := sso_bind_preserves_local_origin c8Profile "tenant-1" 7 "n1" none none c8Db
    (c8Db.users.get ⟨0, by decide⟩) (by decide) (by decide) (by decide) (by decide)
    (by decide)
  exact ⟨h.1, h.2.1 rfl (by decide)⟩

/-! ### Claim C9 -/

/-- The policy of the end-to-end scenario: allowed email domains acme.com,
auto-provisioning on, default SSO role manager. -/
def acmeSettings : SsoSettings :=
  { allowedTenantIds := none, allowedEmailDomains := some ["acme.com"],
    defaultRoleForSso := some "manager", autoProvisionUsers := true }

/-- An empty store carrying the scenario policy. -/
def acmeDb : Db :=
  { users := [], tokens := [], sso := some acmeSettings, crm := [], audit := [] }

/-- A federated profile with an email outside the allowed domain. -/
def bobProfile : MicrosoftUserProfile :=
  { id := "ms-bob", displayName := none, mail := some "bob@other.com",
    givenName := some "Bob", surname := none, userPrincipalName := none }

/-- A federated profile with an email inside the allowed domain and no prior
account. -/
def aliceProfile : MicrosoftUserProfile :=
  { id := "ms-alice", displayName := none, mail := some "alice@acme.com",
    givenName := some "Alice", surname := none, userPrincipalName := none }

/-- The account the scenario provisions for alice. -/
def aliceUser : User :=
  { id := "alice-id", email := some "alice@acme.com", firstName := some "Alice",
    lastName := none, authProvider := "microsoft", passwordHash := none,
    microsoftUserId := some "ms-alice", microsoftTenantId := some "tenant-1",
    isDisabled := false, emailVerified := true, lastLoginAt := none,
    updatedAt := some 3 }

/-- Claim C9: under the acme.com-only auto-provisioning policy, the bob
profile is rejected with the domain error and audited as a failed SSO login
with no account created, while the alice profile succeeds and creates a
federated-origin account with a verified email whose CRM role is the policy
default role. -/
theorem sso_domain_policy_scenario :
    (handleMicrosoftSsoCallback bobProfile "tenant-1" 3 "bob-id" none none acmeDb).1 =
      { success := false, user := none,
        error := some "Your email domain is not authorized for access" } ∧
    (handleMicrosoftSsoCallback bobProfile "tenant-1" 3 "bob-id" none none acmeDb).2.users
      = [] ∧
    (handleMicrosoftSsoCallback bobProfile "tenant-1" 3 "bob-id" none none acmeDb).2.audit
      = [{ userId := none, email := some "bob@other.com", action := "failed_sso_login",
           provider := some "microsoft", success := false,
           failureReason := some "Email domain other.com not in allowed list",
           ipAddress := none, userAgent := none, metadata := none }] ∧
    (handleMicrosoftSsoCallback aliceProfile "tenant-1" 3 "alice-id" none none acmeDb).1 =
      { success := true, user := some aliceUser, error := none } ∧
    (handleMicrosoftSsoCallback aliceProfile "tenant-1" 3 "alice-id" none none acmeDb).2.users
      = [aliceUser] ∧
    aliceUser.authProvider = "microsoft" ∧
    aliceUser.emailVerified = true ∧
    (ensureCrmUser aliceUser "crm-1"
        (handleMicrosoftSsoCallback aliceProfile "tenant-1" 3 "alice-id" none none
          acmeDb).2).crm =
      [{ id := "crm-1", authUserId := "alice-id", role := "manager",
         firstName := some "Alice", lastName := none,
         email := some "alice@acme.com" }] ∧
    acmeSettings.defaultRoleForSso = some "manager" := by
  refine ⟨?_, ?_, ?_, ?_, ?_, rfl, rfl, ?_, rfl⟩ <;> decide

/-! ### Claim C2 -/

/-- Claim C2: when the token-exchange response has no id_token, handleCallback
performs no verification step and no claim cross-check, resolves the tenant
through the organization-lookup chain (never a token claim), and hands the
unverified profile straight to the account binder. -/
theorem handleCallback_no_id_token_skips_verification
    (env : SsoEnv) (now : Int) (newId : String) (ip ua : Option String)
    (db : Db) (states : List (String × Int)) (code state : String)
    (tr : MicrosoftTokenResponse) (profile : MicrosoftUserProfile)
    (hstate : (validateState now states state).1 = true)
    (hex : env.exchangeCode code = some tr)
    (hid : tr.id_token = none)
    (hp : env.userProfile tr.access_token = some profile) :
    handleCallback env now newId ip ua db states code state =
      { result := (handleMicrosoftSsoCallback profile
          (match env.orgTenant tr.access_token with
           | some t => t
           | none => match env.config with | some c => c.tenantId | none => "unknown")
          now newId ip ua db).1,
        db := (handleMicrosoftSsoCallback profile
          (match env.orgTenant tr.access_token with
           | some t => t
           | none => match env.config with | some c => c.tenantId | none => "unknown")
          now newId ip ua db).2,
        states := (validateState now states state).2,
        trace := { verifyCalled := false, profileFetchCalled := true,
                   crossCheckPerformed := false, orgLookupCalled := true } } := by
  simp [handleCallback, handleCallbackRest, hstate, hex, hid, hp, jsOrNull, jsTruthy]

/-- The oracle environment of the claim C2 witness: the exchange yields a
token response with no id_token and the Graph calls yield the bob profile and
an organization tenant. -/
def c2Env : SsoEnv :=
  { config := some { clientId := "client-1", clientSecret := "secret",
                      tenantId := "tenant-0", redirectUri := "https://app/cb" },
    signingKey := fun _ _ => none,
    sigValid := fun _ _ => false,
    exchangeCode := fun c =>
      if c = "code-1" then some { access_token := "at-1", id_token := none } else none,
    userProfile := fun a => if a = "at-1" then some aliceProfile else none,
    orgTenant := fun a => if a = "at-1" then some "tenant-1" else none }

/-- Witness for claim C2 at a concrete environment: with no id_token the
callback still provisions the account from the unverified profile, with a
trace showing no verification and no cross-check. -/
theorem handleCallback_no_id_token_skips_verification_witness :
    handleCallback c2Env 3 "alice-id" none none acmeDb [("st", 0)] "code-1" "st" =
      { result := { success := true, user := some aliceUser, error := none },
        db := { acmeDb with
                users := [aliceUser],
                audit := [{ userId := some "alice-id", email := some "alice@acme.com",
                            action := "sso_login", provider := some "microsoft",
                            success := true, failureReason := none,
                            ipAddress := none, userAgent := none,
                            metadata := some ("tenant-1", "ms-alice") }] },
        states := [], trace := { verifyCalled := false, profileFetchCalled := true,
                                 crossCheckPerformed := false, orgLookupCalled := true } } := by
  have h := handleCallback_no_id_token_skips_verification c2Env 3 "alice-id" none none
    acmeDb [("st", 0)] "code-1" "st"
    { access_token := "at-1", id_token := none }
    aliceProfile (by decide) (by decide) rfl (by decide)
  rw [h]
  decide

/-! ### Claim C3 -/

/-- Claim C3: when the verified ID-token email (the email claim, falling back
to preferred-username) differs case-insensitively from the profile-fetch
email, the callback fails with the mismatch error before the account-binding
step and the store is left untouched — no account is created or updated and
no audit row is written. -/
theorem handleCallback_email_mismatch_rejects
    (env : SsoEnv) (now : Int) (newId : String) (ip ua : Option String)
    (db : Db) (states : List (String × Int)) (code state : String)
    (tr : MicrosoftTokenResponse) (idt : IdToken) (vc : IdTokenPayload)
    (profile : MicrosoftUserProfile) (e m : String)
    (hstate : (validateState now states state).1 = true)
    (hex : env.exchangeCode code = some tr)
    (hid : tr.id_token = some idt)
    (hv : verifyIdToken env now idt = some vc)
    (hp : env.userProfile tr.access_token = some profile)
    (hm : profile.mail = some m) (hmne : m ≠ "")
    (he : jsOr vc.email vc.preferred_username = some e) (hene : e ≠ "")
    (hne : lowerStr e ≠ lowerStr m) :
    (handleCallback env now newId ip ua db states code state).result =
      { success := false, user := none, error := some "Authentication data mismatch" } ∧
    (handleCallback env now newId ip ua db states code state).db = db := by
  constructor <;>
    simp [handleCallback, handleCallbackRest, hstate, hex, hid, hv, hp, hm, hmne,
      he, hene, hne, jsTruthy]

/-- The ID token of the claim C3 witness: verified claims whose email differs
from the profile email. -/
def c3Token : IdToken :=
  { header := { alg := "RS256", kid := some "kid-1" },
    payload := { iss := "https://sts.windows.net/tid-1/", sub := "sub-1",
                 aud := "client-1", exp := 100, iat := 0, tid := some "tid-1",
                 email := some "eve@evil.com", preferred_username := none },
    signature := "sig" }

/-- The oracle environment of the claim C3 witness. -/
def c3Env : SsoEnv :=
  { config := some { clientId := "client-1", clientSecret := "secret",
                      tenantId := "tenant-0", redirectUri := "https://app/cb" },
    signingKey := fun tenant kid =>
      if tenant = "tid-1" && kid = "kid-1" then some "KEY1" else none,
    sigValid := fun _ k => k = "KEY1",
    exchangeCode := fun c =>
      if c = "code-1" then some { access_token := "at-1", id_token := some c3Token }
      else none,
    userProfile := fun a => if a = "at-1" then some aliceProfile else none,
    orgTenant := fun _ => none }

/-- Witness for claim C3 at a concrete environment: the eve claim email
against the alice profile email aborts with the mismatch error and leaves the
store untouched. -/
theorem handleCallback_email_mismatch_rejects_witness :
    (handleCallback c3Env 3 "alice-id" none none acmeDb [("st", 0)] "code-1" "st").result =
      { success := false, user := none, error := some "Authentication data mismatch" } ∧
    (handleCallback c3Env 3 "alice-id" none none acmeDb [("st", 0)] "code-1" "st").db =
      acmeDb := by
  exact handleCallback_email_mismatch_rejects c3Env 3 "alice-id" none none acmeDb
    [("st", 0)] "code-1" "st"
    { access_token := "at-1", id_token := some c3Token } c3Token
    c3Token.payload aliceProfile "eve@evil.com" "alice@acme.com"
    (by decide) (by decide) rfl (by decide) (by decide) rfl (by decide) rfl
    (by decide) (by decide)

/-! ### Claim C10 -/

/-- Claim C10: every ID token that verifyIdToken accepts (carrying a tenant
claim) has passed all the checks: a signing key fetched by the header kid
from the key set of the tenant resolved from the tid claim, a valid signature
against that key, algorithm exactly RS256 (so "none" is rejected), audience
equal to the configured client identifier, issuer equal to one of the two
issuer templates instantiated with the tid claim, and expiry and issued-at
within the 300-second clock tolerance. -/
theorem verifyIdToken_checks (env : SsoEnv) (now : Int) (tok : IdToken)
    (claims : IdTokenPayload) (t : String)
    (hv : verifyIdToken env now tok = some claims)
    (ht : tok.payload.tid = some t) (htne : t ≠ "") :
    claims = tok.payload ∧
    ∃ config kid key,
      env.config = some config ∧
      tok.header.kid = some kid ∧
      env.signingKey (if t = "common" then config.tenantId else t) kid = some key ∧
      env.sigValid tok key = true ∧
      tok.header.alg = "RS256" ∧
      tok.header.alg ≠ "none" ∧
      tok.payload.aud = config.clientId ∧
      (tok.payload.iss = "https://login.microsoftonline.com/" ++ t ++ "/v2.0" ∨
        tok.payload.iss = "https://sts.windows.net/" ++ t ++ "/") ∧
      now ≤ tok.payload.exp + 300 ∧
      tok.payload.iat ≤ now + 300 := by
  unfold verifyIdToken at hv
  cases hc : env.config with
  | none => rw [hc] at hv; exact absurd hv (by simp)
  | some config =>
    rw [hc] at hv
    cases hk : tok.header.kid with
    | none => rw [hk] at hv; exact absurd hv (by simp)
    | some kid =>
      rw [hk] at hv
      have hjs : jsOrNull tok.payload.tid = some t := by
        simp [jsOrNull, jsTruthy, ht, htne]
      rw [hjs] at hv
      simp only [Option.getD_some] at hv
      cases hkey : env.signingKey (if t = "common" then config.tenantId else t) kid with
      | none => simp [hkey] at hv
      | some key =>
        simp only [hkey] at hv
        unfold jwtVerify at hv
        split at hv
        next hcond =>
          injection hv with hv
          refine ⟨hv.symm, config, kid, key, rfl, rfl, hkey, ?_⟩
          simp only [Bool.and_eq_true, decide_eq_true_eq] at hcond
          obtain ⟨⟨⟨⟨⟨hsig, halg⟩, haud⟩, hiss⟩, hexp⟩, hiat⟩ := hcond
          have halg2 : tok.header.alg = "RS256" := by simpa using halg
          have hiss2 : tok.payload.iss = "https://login.microsoftonline.com/" ++ t ++ "/v2.0"
              ∨ tok.payload.iss = "https://sts.windows.net/" ++ t ++ "/" := by
            simpa using hiss
          have haud2 : tok.payload.aud = config.clientId := by simpa using haud
          exact ⟨hsig, halg2, by simp [halg2], haud2, hiss2, hexp, hiat⟩
        next hcond => exact absurd hv (by simp)

/-- The oracle environment of the claim C10 witness. -/
def c10Env : SsoEnv :=
  { config := some { clientId := "client-1", clientSecret := "secret",
                      tenantId := "tenant-0", redirectUri := "https://app/cb" },
    signingKey := fun tenant kid =>
      if tenant = "tid-1" && kid = "kid-1" then some "KEY1" else none,
    sigValid := fun _ k => k = "KEY1",
    exchangeCode := fun _ => none,
    userProfile := fun _ => none,
    orgTenant := fun _ => none }

/-- A well-formed ID token accepted by `c10Env` at time 50. -/
def c10Token : IdToken :=
  { header := { alg := "RS256", kid := some "kid-1" },
    payload := { iss := "https://sts.windows.net/tid-1/", sub := "sub-1",
                 aud := "client-1", exp := 100, iat := 0, tid := some "tid-1",
                 email := none, preferred_username := none },
    signature := "sig" }

/-- Witness for claim C10 at the concrete environment and token. -/
theorem verifyIdToken_checks_witness :
    c10Token.payload = c10Token.payload ∧
    ∃ config kid key,
      c10Env.config = some config ∧
      c10Token.header.kid = some kid ∧
      c10Env.signingKey (if "tid-1" = "common" then config.tenantId else "tid-1") kid
        = some key ∧
      c10Env.sigValid c10Token key = true ∧
      c10Token.header.alg = "RS256" ∧
      c10Token.header.alg ≠ "none" ∧
      c10Token.payload.aud = config.clientId ∧
      (c10Token.payload.iss = "https://login.microsoftonline.com/" ++ "tid-1" ++ "/v2.0" ∨
        c10Token.payload.iss = "https://sts.windows.net/" ++ "tid-1" ++ "/") ∧
      (50 : Int) ≤ c10Token.payload.exp + 300 ∧
      c10Token.payload.iat ≤ (50 : Int) + 300 := by
  exact verifyIdToken_checks c10Env 50 c10Token c10Token.payload "tid-1"
    (by decide) rfl (by decide)

end ContivosCRM
